import Mathlib

/-!
Verification of `deepface/commons/functions.py` (image ingestion and
normalization pipeline) against its natural-language specification.

The embedding below models the functions of the source file shallowly:

* images are represented by their shape `(height, width, channels)` — the
  claims under verification concern control flow, regions and shapes, never
  individual pixel values of decoded images;
* the external collaborators (`cv2.imread`, `cv2.imdecode`,
  `base64.b64decode`, `os.path.isfile`) are passed in as an `ExternalFns`
  record, and the pluggable face-detector backend (`FaceDetector`, an
  external collaborator per the spec) is a `Detector` function parameter;
  a detector invocation that raises is modelled by `Option.none`, matching
  the `try/except` that converts any detector failure into "zero faces";
* a Python call that may raise returns a `PyResult`; `ValueError` carries
  its exact message string so that message-content claims can be stated.
-/

namespace DeepFace

/-- Shape of a numpy pixel array: `img.shape = (height, width, channels)`. -/
structure Img where
  height : Nat
  width : Nat
  channels : Nat
deriving DecidableEq

/-- A face region, a Python list such as `[0, 0, img.shape[0], img.shape[1]]`. -/
abbrev Region := List Nat

/-- One element of the detector output: a `(face_crop, region)` pair. -/
abbrev Face := Img × Region

/-- Python exceptions that the modelled code can raise.  `valueError` keeps
the exact message; `indexError` models `list[1]` on a too-short list;
`base64Error` models `binascii.Error` from `base64.b64decode`;
`attributeError` models `.shape` on `None`. -/
inductive PyError where
  | valueError : String → PyError
  | indexError : PyError
  | base64Error : PyError
  | attributeError : PyError
deriving DecidableEq

/-- Result of a Python call: a value, or a raised exception. -/
inductive PyResult (α : Type) where
  | ok : α → PyResult α
  | raised : PyError → PyResult α
deriving DecidableEq

/-- The input to `load_image`: either an in-memory numpy array or a string
(a filesystem path or a `data:image/` URI). -/
inductive ImgDescriptor where
  | raw : Img → ImgDescriptor
  | str : String → ImgDescriptor
deriving DecidableEq

/-- External library functions used by `load_image`, passed in explicitly:
`os.path.isfile`, `cv2.imread` (returns `None` — `Option.none` — when the
file cannot be decoded), `base64.b64decode` (`none` models a raised
`binascii.Error`), and `cv2.imdecode` over the decoded bytes (returns
`None` on failure, it does not raise). -/
structure ExternalFns where
  isfile : String → Bool
  imread : String → Option Img
  b64decode : String → Option (List Nat)
  imdecode : List Nat → Option Img

/-- The pluggable detector backend: given the image and the `align` flag it
returns the list of `(crop, region)` pairs, or `none` when it raises (the
source catches any such exception and treats it as zero faces). -/
abbrev Detector := Img → Bool → Option (List Face)

/-- Python's `str.split(sep)` for a single-character separator, over the
character list: split at every occurrence of `sep`. -/
def pySplit (sep : Char) : List Char → List (List Char)
  | [] => [[]]
  | c :: rest =>
    if c = sep then
      [] :: pySplit sep rest
    else
      match pySplit sep rest with
      | [] => [[c]]
      | h :: t => (c :: h) :: t

/-- Python's `uri.split(',')` as a list of strings. -/
def pySplitComma (uri : String) : List String :=
  (pySplit ',' uri.data).map List.asString

/-- The payload extraction of `loadBase64Img`: `uri.split(',')[1]`, i.e. the
segment of the string strictly between the first and the second comma
(`none` models the `IndexError` when the string has no comma). -/
def b64_payload (uri : String) : Option String :=
  (pySplitComma uri).get? 1

/-- Modelled from the spec's words, for comparison with `b64_payload`:
"everything after the first comma is treated as base64 payload". -/
def b64_payload_spec (uri : String) : Option String :=
  match pySplitComma uri with
  | _ :: p :: rest => some (String.intercalate "," (p :: rest))
  | _ => none

/-- `loadBase64Img(uri)`: take `uri.split(',')[1]`, base64-decode it
(`np.fromstring` then merely reinterprets the bytes), and `cv2.imdecode`
the bytes into a BGR pixel array (possibly `None`). -/
def loadBase64Img (ext : ExternalFns) (uri : String) : PyResult (Option Img) :=
  match b64_payload uri with
  | none => .raised .indexError
  | some payload =>
    match ext.b64decode payload with
    | none => .raised .base64Error
    | some bytes => .ok (ext.imdecode bytes)

/-- `load_image(img)`.  For a numpy-array input, `exact_image` is true and
the data-URI test `len(img) > 11 and img[0:11] == "data:image/"` is false
(an elementwise comparison of a pixel slice against a string is falsy), so
the array is returned unchanged.  For a string input the data-URI test
compares the first 11 characters with `"data:image/"` and requires the
length to exceed 11; otherwise the string is treated as a path. -/
def load_image (ext : ExternalFns) (d : ImgDescriptor) : PyResult (Option Img) :=
  match d with
  | .raw i => .ok (some i)
  | .str s =>
    if 11 < s.data.length ∧ s.data.take 11 = "data:image/".data then
      loadBase64Img ext s
    else if ext.isfile s then
      .ok (ext.imread s)
    else
      .raised (.valueError ("Confirm that " ++ s ++ " exists"))

/-- The exact message of the zero-faces `ValueError` in `detect_faces`
(two adjacent Python string literals, concatenated). -/
def noFaceMsg : String :=
  "No face could be detected. Please confirm that the picture is a face photo or consider to set enforce_detection param to False."

/-- Python's rendering of a 3-tuple `img.shape`. -/
def shapeStr (i : Img) : String :=
  "(" ++ toString i.height ++ ", " ++ toString i.width ++ ", " ++ toString i.channels ++ ")"

/-- The exact message of the degenerate-shape `ValueError` in `detect_faces`
(an f-string interpolating `img.shape`). -/
def degenMsg (i : Img) : String :=
  "Detected face shape is " ++ shapeStr i ++ ", Consider to set enforce_detection argument to False."

/-- Lines 115–121 of the source, the zero-faces handling, translated exactly
as written (note the `if not enforce_detection: raise` condition):

    if len(faces) == 0:
        if not enforce_detection:
            raise ValueError("No face could be detected. ...")
        else:
            faces = [(img, [0, 0, img.shape[0], img.shape[1]])]
-/
def detected_or_fallback (img : Img) (enforce_detection : Bool) (faces : List Face) :
    PyResult (List Face) :=
  if faces.length = 0 then
    if ¬ enforce_detection then
      .raised (.valueError noFaceMsg)
    else
      .ok [(img, [0, 0, img.height, img.width])]
  else
    .ok faces

/-- Lines 123–125 of the source: the loop over the pairs, raising at the
first crop with a zero spatial dimension while enforcement is on. -/
def degenerate_check (enforce_detection : Bool) (faces : List Face) : Option PyError :=
  faces.findSome? fun f =>
    if (f.1.height = 0 ∨ f.1.width = 0) ∧ enforce_detection = true then
      some (.valueError (degenMsg f.1))
    else
      none

/-- `detect_faces(img, enforce_detection, detector_backend, align)`.
`FaceDetector.build_model` memoizes and returns the backend handle; it has
no effect on the value computed here, so the backend's behaviour enters the
model only through the `det` parameter (the `try/except`-wrapped call
`FaceDetector.detect_faces`, where `none` models a raised exception and is
replaced by the empty list). -/
def detect_faces (ext : ExternalFns) (det : Detector) (d : ImgDescriptor)
    (enforce_detection : Bool) (detector_backend : String) (align : Bool) :
    PyResult (List Face) :=
  match load_image ext d with
  | .raised e => .raised e
  | .ok none => .raised .attributeError
  | .ok (some img) =>
    let img_region : Region := [0, 0, img.height, img.width]
    if detector_backend = "skip" then
      .ok [(img, img_region)]
    else
      match detected_or_fallback img enforce_detection ((det img align).getD []) with
      | .raised e => .raised e
      | .ok faces =>
        match degenerate_check enforce_detection faces with
        | some e => .raised e
        | none => .ok faces

/-- A concrete `ExternalFns` for closed evaluations: an empty filesystem. -/
def extStub : ExternalFns :=
  { isfile := fun _ => false
    imread := fun _ => none
    b64decode := fun _ => none
    imdecode := fun _ => none }

/-- A concrete `ExternalFns` whose base64/image decoders record the payload:
the decoded image's height is the length of the base64 payload string. -/
def extRecord : ExternalFns :=
  { isfile := fun _ => false
    imread := fun _ => none
    b64decode := fun p => some (p.data.map Char.toNat)
    imdecode := fun bytes => some ⟨bytes.length, 1, 3⟩ }

/-- A detector that finds zero faces on every image. -/
def detNone : Detector := fun _ _ => some []

/-- C1: the claim says that with `enforce_detection = true` and zero faces
found, `detect_faces` raises the no-face `ValueError`.  Evaluating the code
at such an input shows the opposite: the condition at line 116 is
`if not enforce_detection: raise`, so with enforcement ON the call returns
the whole-image fallback instead of raising.  The raised message itself
("consider to set enforce_detection param to False") belongs to the
enforcement-on case, so the code contradicts its own message: a code bug. -/
theorem C1_enforce_true_zero_faces_returns_fallback :
    detect_faces extStub detNone (.raw ⟨4, 6, 3⟩) true "opencv" true =
      .ok [(⟨4, 6, 3⟩, [0, 0, 4, 6])] := by decide

/-- C2: the claim says that with `enforce_detection = false` and zero faces
found, `detect_faces` returns the whole-image fallback without raising.
Evaluating the code at such an input shows it raises the no-face
`ValueError` instead — the same inverted condition as in C1. -/
theorem C2_enforce_false_zero_faces_raises :
    detect_faces extStub detNone (.raw ⟨4, 6, 3⟩) false "opencv" true =
      .raised (.valueError noFaceMsg) := by decide

/-- C3: with `detector_backend = "skip"`, for every loaded image and every
value of `align` and `enforce_detection`, `detect_faces` returns exactly one
pair — the loaded image and the whole-image region `[0, 0, height, width]`.
The result is the same for any two detector functions, which formalizes
that no detector backend is ever invoked (the source returns before
`FaceDetector.build_model`). -/
theorem C3_skip_whole_image (ext : ExternalFns) (det1 det2 : Detector)
    (d : ImgDescriptor) (enforce_detection align : Bool) (img : Img)
    (h : load_image ext d = .ok (some img)) :
    detect_faces ext det1 d enforce_detection "skip" align =
      .ok [(img, [0, 0, img.height, img.width])] ∧
    detect_faces ext det1 d enforce_detection "skip" align =
      detect_faces ext det2 d enforce_detection "skip" align := by
  constructor <;> simp [detect_faces, h]

/-- Witness for C3 at a concrete input. -/
theorem C3_witness :
    load_image extStub (.raw ⟨2, 3, 3⟩) = .ok (some ⟨2, 3, 3⟩) ∧
    (detect_faces extStub detNone (.raw ⟨2, 3, 3⟩) true "skip" false =
       .ok [(⟨2, 3, 3⟩, [0, 0, 2, 3])] ∧
     detect_faces extStub detNone (.raw ⟨2, 3, 3⟩) true "skip" false =
       detect_faces extStub (fun _ _ => none) (.raw ⟨2, 3, 3⟩) true "skip" false) :=
  ⟨by decide,
   C3_skip_whole_image extStub detNone (fun _ _ => none) (.raw ⟨2, 3, 3⟩) true false
     ⟨2, 3, 3⟩ (by decide)⟩

/-- C4: `load_image` on an input that is already a numpy pixel array is the
identity: the very same array is returned, no decoding happens and no error
is raised (the value flows through `return img` untouched, so no copy is
made either). -/
theorem C4_load_image_raw_identity (ext : ExternalFns) (i : Img) :
    load_image ext (.raw i) = .ok (some i) := rfl

/-- Helper: with enforcement on, `degenerate_check` raises exactly at the
first pair whose crop has a zero spatial dimension. -/
theorem degenerate_check_find (fs : List Face) (f0 : Face)
    (h : fs.find? (fun p => decide (p.1.height = 0 ∨ p.1.width = 0)) = some f0) :
    degenerate_check true fs = some (.valueError (degenMsg f0.1)) := by
  induction fs with
  | nil => simp at h
  | cons a t ih =>
    by_cases hc : a.1.height = 0 ∨ a.1.width = 0
    · rw [List.find?_cons_of_pos _ (by simpa using hc)] at h
      cases h
      simp [degenerate_check, List.findSome?_cons, hc]
    · rw [List.find?_cons_of_neg _ (by simpa using hc)] at h
      have := ih h
      simp only [degenerate_check, List.findSome?_cons] at this ⊢
      simpa [hc] using this

/-- C7: after the zero-faces handling produced the list `fs`, if some pair
of `fs` has a crop with zero height or zero width and enforcement is
enabled, `detect_faces` raises the degenerate-shape `ValueError`, whose
message interpolates the offending crop's shape (`degenMsg` is literally
"Detected face shape is " ++ the shape tuple ++ ...).  The list `fs` may in
particular be the whole-image fallback pair, as the witness below shows on
an image with zero height. -/
theorem C7_degenerate_crop_raises (ext : ExternalFns) (det : Detector)
    (d : ImgDescriptor) (detector_backend : String) (align : Bool)
    (img : Img) (fs : List Face) (f0 : Face)
    (hload : load_image ext d = .ok (some img))
    (hskip : detector_backend ≠ "skip")
    (hfall : detected_or_fallback img true ((det img align).getD []) = .ok fs)
    (hfind : fs.find? (fun p => decide (p.1.height = 0 ∨ p.1.width = 0)) = some f0) :
    detect_faces ext det d true detector_backend align =
      .raised (.valueError (degenMsg f0.1)) := by
  have hdc := degenerate_check_find fs f0 hfind
  simp [detect_faces, hload, hskip, hfall, hdc]

/-- Witness for C7: a whole-image fallback pair of zero height (enforcement
on, detector finds zero faces) makes the call fail with the message naming
the shape `(0, 5, 3)`. -/
theorem C7_witness :
    (load_image extStub (.raw ⟨0, 5, 3⟩) = .ok (some ⟨0, 5, 3⟩) ∧
     ("opencv" : String) ≠ "skip" ∧
     detected_or_fallback ⟨0, 5, 3⟩ true ((detNone ⟨0, 5, 3⟩ true).getD []) =
       .ok [(⟨0, 5, 3⟩, [0, 0, 0, 5])] ∧
     ([(⟨0, 5, 3⟩, ([0, 0, 0, 5] : Region))] : List Face).find?
         (fun p => decide (p.1.height = 0 ∨ p.1.width = 0)) =
       some (⟨0, 5, 3⟩, [0, 0, 0, 5])) ∧
    detect_faces extStub detNone (.raw ⟨0, 5, 3⟩) true "opencv" true =
      .raised (.valueError (degenMsg ⟨0, 5, 3⟩)) :=
  ⟨⟨by decide, by decide, by decide, by decide⟩,
   C7_degenerate_crop_raises extStub detNone (.raw ⟨0, 5, 3⟩) "opencv" true
     ⟨0, 5, 3⟩ [(⟨0, 5, 3⟩, [0, 0, 0, 5])] (⟨0, 5, 3⟩, [0, 0, 0, 5])
     (by decide) (by decide) (by decide) (by decide)⟩

/-- C8 counterexample: the claim says everything after the FIRST comma is
the base64 payload.  The code takes `uri.split(',')[1]`, the segment
between the first and second comma.  On a data URI whose tail contains a
second comma the two disagree: the code decodes the 4-character payload
"QUJD" (the recording decoder exposes the payload length as the image
height), not the 8-character "QUJD,XYZ" that the claim prescribes. -/
theorem C8_counterexample :
    load_image extRecord (.str "data:image/png;base64,QUJD,XYZ") =
      .ok (some ⟨4, 1, 3⟩) ∧
    b64_payload "data:image/png;base64,QUJD,XYZ" = some "QUJD" ∧
    b64_payload_spec "data:image/png;base64,QUJD,XYZ" = some "QUJD,XYZ" ∧
    b64_payload "data:image/png;base64,QUJD,XYZ" ≠
      b64_payload_spec "data:image/png;base64,QUJD,XYZ" := by
  refine ⟨by decide, by decide, by decide, by decide⟩

/-- C8 amended: a string longer than 11 characters whose first 11 characters
are `data:image/` is routed to the base64 loader; the payload is
`split(',')[1]` — the segment between the first and the second comma
(which equals everything after the first comma exactly when the remainder
contains no further comma) — it is base64-decoded to bytes and those bytes
are decoded as a compressed image into a BGR pixel array. -/
theorem C8_amended (ext : ExternalFns) (s : String)
    (h1 : 11 < s.data.length) (h2 : s.data.take 11 = "data:image/".data) :
    load_image ext (.str s) =
      (match b64_payload s with
       | none => .raised .indexError
       | some payload =>
         match ext.b64decode payload with
         | none => .raised .base64Error
         | some bytes => .ok (ext.imdecode bytes)) := by
  have h1' : 11 < s.length := h1
  simp [load_image, loadBase64Img, h1, h1', h2]

/-- Witness for C8 amended, on a well-formed single-comma data URI. -/
theorem C8_witness :
    (11 < ("data:image/png;base64,QUJD" : String).data.length ∧
     ("data:image/png;base64,QUJD" : String).data.take 11 =
       ("data:image/" : String).data) ∧
    load_image extRecord (.str "data:image/png;base64,QUJD") =
      (match b64_payload "data:image/png;base64,QUJD" with
       | none => .raised .indexError
       | some payload =>
         match extRecord.b64decode payload with
         | none => .raised .base64Error
         | some bytes => .ok (extRecord.imdecode bytes)) :=
  ⟨⟨by decide, by decide⟩, C8_amended extRecord _ (by decide) (by decide)⟩

/-! ## Geometric normalizer: `reshape_face` -/

/-- `cv2.cvtColor(img, cv2.COLOR_BGR2GRAY)`: collapses the channel axis,
spatial shape unchanged. -/
def cvtColor_gray (i : Img) : Img := { i with channels := 1 }

/-- The EXACT-arithmetic reference value of lines 200–204 of the source:

    factor_0 = target_size[0] / img.shape[0]
    factor_1 = target_size[1] / img.shape[1]
    factor = min(factor_0, factor_1)
    dsize = (int(img.shape[1] * factor), int(img.shape[0] * factor))

`t0 * w ≤ t1 * h` is `t0/h ≤ t1/w` cleared of denominators, so it selects
which quotient is the minimum; each component is then the floor of the
corresponding product (`int` truncates, and the products are nonnegative).
`resized_shape_eq_floor` proves this definition equal to the exact rational
formula `(⌊w·min(t0/h, t1/w)⌋, ⌊h·min(t0/h, t1/w)⌋)`.

The source evaluates the formula in IEEE-754 double arithmetic, whose
rounding can shift a product across the truncation boundary: on a 49×10976
image with target 224×224 the doubles give
`int(49 * (224/10976)) = int(0.9999999999999999) = 0` where the exact value
is `49 · 224/10976 = 1`.  So this definition is NOT taken as the code's
dsize; `reshape_face` below receives the computed dsize as a parameter, and
this exact version serves as a reference instantiation at inputs where the
two agree. -/
def resized_shape (h w t0 t1 : Nat) : Nat × Nat :=
  if t0 * w ≤ t1 * h then (w * t0 / h, h * t0 / h)
  else (w * t1 / w, h * t1 / w)

/-- `cv2.resize(img, dsize)` at shape level: `dsize = (width, height)`; the
call raises when the source is empty or either component of `dsize` is zero
(OpenCV asserts a nonempty `dsize` unless explicit scale factors are
given). -/
def cv2_resize (i : Img) (dsize : Nat × Nat) : Option Img :=
  if i.height = 0 ∨ i.width = 0 ∨ dsize.1 = 0 ∨ dsize.2 = 0 then none
  else some ⟨dsize.2, dsize.1, i.channels⟩

/-- Python's `(diff // 2, diff - diff // 2)` — `//` is floor division. -/
def pad_split (d : Int) : Int × Int := (d.fdiv 2, d - d.fdiv 2)

/-- `np.pad(img, ((d0//2, d0 - d0//2), (d1//2, d1 - d1//2), (0, 0)),
'constant')` at shape level: adds the two split amounts on each spatial
axis, raising (`none`) when any pad width is negative.  The channel-axis
entry `(0, 0)` (absent in the grayscale branch) adds nothing. -/
def np_pad (i : Img) (d0 d1 : Int) : Option Img :=
  if (pad_split d0).1 < 0 ∨ (pad_split d0).2 < 0 ∨
      (pad_split d1).1 < 0 ∨ (pad_split d1).2 < 0 then
    none
  else
    some ⟨(pad_split d0).1.toNat + i.height + (pad_split d0).2.toNat,
          (pad_split d1).1.toNat + i.width + (pad_split d1).2.toNat,
          i.channels⟩

/-- `reshape_face(img, region, target_size, grayscale)` at shape level:
grayscale conversion, aspect-preserving resize, centering pad, defensive
re-resize (note the source's `cv2.resize(img, target_size)` backstop reads
`target_size` as `(width, height)`).

The dsize of the first resize is the IEEE-754 double computation
`(int(w * factor), int(h * factor))` with
`factor = min(t0/h, t1/w)`; double rounding is not representable in this
embedding (the exact-rational `resized_shape` diverges from it, e.g. at
49×10976 with target 224×224), so the computed pair is supplied as the
parameter `dsizeOf`, applied to `(height, width, t0, t1)`, and theorems
quantify over it — exactly as the external `numpy.std` is supplied to
`normalize_input`.  Everything else is concrete.

The trailing `img_to_array`/`expand_dims`/`/= 255` steps produce the
`(1, h, w, c)` tensor without changing the spatial shape, so the returned
`Img` stands for the tensor's spatial part.  A `none` result models a
raised exception (`ZeroDivisionError` on an empty input, `cv2.error` from a
resize to an empty `dsize`, `ValueError` from a negative pad width). -/
def reshape_face (dsizeOf : Nat → Nat → Nat → Nat → Nat × Nat)
    (img0 : Img) (region : Region) (target_size : Nat × Nat)
    (grayscale : Bool) : Option (Img × Region) :=
  let img := if grayscale then cvtColor_gray img0 else img0
  if img.height = 0 ∨ img.width = 0 then none
  else
    (cv2_resize img
        (dsizeOf img.height img.width target_size.1 target_size.2)).bind
      fun img1 =>
        (np_pad img1 ((target_size.1 : Int) - (img1.height : Int))
            ((target_size.2 : Int) - (img1.width : Int))).bind
          fun img2 =>
            if (img2.height, img2.width) ≠ target_size then
              (cv2_resize img2 (target_size.1, target_size.2)).map
                fun i => (i, region)
            else
              some (img2, region)

/-- The integer `resized_shape` equals the source's rational formula
`(⌊w·min(t0/h, t1/w)⌋, ⌊h·min(t0/h, t1/w)⌋)`. -/
theorem resized_shape_eq_floor (h w t0 t1 : Nat) (hh : 0 < h) (hw : 0 < w) :
    resized_shape h w t0 t1 =
      ((⌊(w : ℚ) * min ((t0 : ℚ) / (h : ℚ)) ((t1 : ℚ) / (w : ℚ))⌋).toNat,
       (⌊(h : ℚ) * min ((t0 : ℚ) / (h : ℚ)) ((t1 : ℚ) / (w : ℚ))⌋).toNat) := by
  have hhq : (0 : ℚ) < h := by exact_mod_cast hh
  have hwq : (0 : ℚ) < w := by exact_mod_cast hw
  by_cases hc : (t0 : ℚ) / h ≤ (t1 : ℚ) / w
  · have hmin : min ((t0 : ℚ) / h) ((t1 : ℚ) / w) = (t0 : ℚ) / h := min_eq_left hc
    have hcn : t0 * w ≤ t1 * h := by
      have := (div_le_div_iff₀ hhq hwq).mp hc
      exact_mod_cast this
    have e1 : (w : ℚ) * ((t0 : ℚ) / h) = ((w * t0 : ℕ) : ℚ) / (h : ℚ) := by
      push_cast; ring
    have e2 : (h : ℚ) * ((t0 : ℚ) / h) = ((h * t0 : ℕ) : ℚ) / (h : ℚ) := by
      push_cast; ring
    rw [resized_shape, if_pos hcn, hmin, e1, e2]
    simp only [Prod.mk.injEq]
    constructor <;> rw [Int.floor_toNat, Nat.floor_div_eq_div]
  · have hlt : (t1 : ℚ) / w < (t0 : ℚ) / h := lt_of_not_le hc
    have hmin : min ((t0 : ℚ) / h) ((t1 : ℚ) / w) = (t1 : ℚ) / w :=
      min_eq_right hlt.le
    have hcn : ¬ t0 * w ≤ t1 * h := by
      have := (div_lt_div_iff₀ hwq hhq).mp hlt
      intro hcon
      have : (t0 : ℚ) * w ≤ (t1 : ℚ) * h := by exact_mod_cast hcon
      linarith [(div_lt_div_iff₀ hwq hhq).mp hlt]
    have e1 : (w : ℚ) * ((t1 : ℚ) / w) = ((w * t1 : ℕ) : ℚ) / (w : ℚ) := by
      push_cast; ring
    have e2 : (h : ℚ) * ((t1 : ℚ) / w) = ((h * t1 : ℕ) : ℚ) / (w : ℚ) := by
      push_cast; ring
    rw [resized_shape, if_neg hcn, hmin, e1, e2]
    simp only [Prod.mk.injEq]
    constructor <;> rw [Int.floor_toNat, Nat.floor_div_eq_div]

/-- The aspect-preserving resize never exceeds the target in either
dimension. -/
theorem resized_le (h w t0 t1 : Nat) (hh : 0 < h) (hw : 0 < w) :
    (resized_shape h w t0 t1).1 ≤ t1 ∧ (resized_shape h w t0 t1).2 ≤ t0 := by
  rw [resized_shape]
  split
  · rename_i hc
    refine ⟨?_, ?_⟩
    · calc w * t0 / h ≤ t1 * h / h :=
            Nat.div_le_div_right (by rw [Nat.mul_comm w t0]; exact hc)
        _ = t1 := by rw [Nat.mul_comm t1 h, Nat.mul_div_cancel_left t1 hh]
    · have : h * t0 / h = t0 := Nat.mul_div_cancel_left t0 hh
      omega
  · rename_i hc
    refine ⟨?_, ?_⟩
    · have : w * t1 / w = t1 := Nat.mul_div_cancel_left t1 hw
      omega
    · have hlt : h * t1 < t0 * w := by
        rw [Nat.mul_comm h t1]
        omega
      have := (Nat.div_lt_iff_lt_mul hw).mpr hlt
      omega

/-- The split of a pad total: sums to the total and, for a nonnegative
total, both sides are nonnegative, the smaller (floor) side comes first and
the two sides differ by at most one. -/
theorem pad_split_spec (d : Int) :
    (pad_split d).1 + (pad_split d).2 = d ∧
    (0 ≤ d →
      0 ≤ (pad_split d).1 ∧ 0 ≤ (pad_split d).2 ∧
      (pad_split d).1.toNat + (pad_split d).2.toNat = d.toNat ∧
      (pad_split d).1 ≤ (pad_split d).2 ∧
      |(pad_split d).1 - (pad_split d).2| ≤ 1) := by
  rw [pad_split, Int.fdiv_eq_ediv d (by omega)]
  refine ⟨by omega, fun hd => ⟨by omega, by omega, by omega, by omega, ?_⟩⟩
  rw [abs_le]
  omega

/-- C6: in `reshape_face`, the padding totals on the two spatial axes are
each split as evenly as possible: the two sides sum to the total, the floor
half is on the top/left side and the remainder on the other, and the sides
differ by at most one pixel, so the scaled content is centered. -/
theorem C6_padding_split_even (h w t0 t1 : Nat) (hh : 0 < h) (hw : 0 < w) :
    ((pad_split ((t0 : Int) - ((resized_shape h w t0 t1).2 : Int))).1 +
        (pad_split ((t0 : Int) - ((resized_shape h w t0 t1).2 : Int))).2 =
      (t0 : Int) - ((resized_shape h w t0 t1).2 : Int)) ∧
    (pad_split ((t0 : Int) - ((resized_shape h w t0 t1).2 : Int))).1 ≤
      (pad_split ((t0 : Int) - ((resized_shape h w t0 t1).2 : Int))).2 ∧
    |(pad_split ((t0 : Int) - ((resized_shape h w t0 t1).2 : Int))).1 -
        (pad_split ((t0 : Int) - ((resized_shape h w t0 t1).2 : Int))).2| ≤ 1 ∧
    ((pad_split ((t1 : Int) - ((resized_shape h w t0 t1).1 : Int))).1 +
        (pad_split ((t1 : Int) - ((resized_shape h w t0 t1).1 : Int))).2 =
      (t1 : Int) - ((resized_shape h w t0 t1).1 : Int)) ∧
    (pad_split ((t1 : Int) - ((resized_shape h w t0 t1).1 : Int))).1 ≤
      (pad_split ((t1 : Int) - ((resized_shape h w t0 t1).1 : Int))).2 ∧
    |(pad_split ((t1 : Int) - ((resized_shape h w t0 t1).1 : Int))).1 -
        (pad_split ((t1 : Int) - ((resized_shape h w t0 t1).1 : Int))).2| ≤ 1 := by
  obtain ⟨hle1, hle2⟩ := resized_le h w t0 t1 hh hw
  obtain ⟨s0a, s0b⟩ := pad_split_spec ((t0 : Int) - ((resized_shape h w t0 t1).2 : Int))
  obtain ⟨s1a, s1b⟩ := pad_split_spec ((t1 : Int) - ((resized_shape h w t0 t1).1 : Int))
  obtain ⟨_, _, _, q0d, q0e⟩ := s0b (by omega)
  obtain ⟨_, _, _, q1d, q1e⟩ := s1b (by omega)
  exact ⟨s0a, q0d, q0e, s1a, q1d, q1e⟩

/-- Witness for C6 on a concrete input (a 10×20 image fit into 224×224:
the vertical padding total 112 splits as 56/56, the horizontal total 0 as
0/0). -/
theorem C6_witness :
    (0 < 10 ∧ 0 < 20) ∧
    (((pad_split ((224 : Int) - ((resized_shape 10 20 224 224).2 : Int))).1 +
          (pad_split ((224 : Int) - ((resized_shape 10 20 224 224).2 : Int))).2 =
        (224 : Int) - ((resized_shape 10 20 224 224).2 : Int)) ∧
      (pad_split ((224 : Int) - ((resized_shape 10 20 224 224).2 : Int))).1 ≤
        (pad_split ((224 : Int) - ((resized_shape 10 20 224 224).2 : Int))).2 ∧
      |(pad_split ((224 : Int) - ((resized_shape 10 20 224 224).2 : Int))).1 -
          (pad_split ((224 : Int) - ((resized_shape 10 20 224 224).2 : Int))).2| ≤ 1 ∧
      (((pad_split ((224 : Int) - ((resized_shape 10 20 224 224).1 : Int))).1 +
          (pad_split ((224 : Int) - ((resized_shape 10 20 224 224).1 : Int))).2 =
        (224 : Int) - ((resized_shape 10 20 224 224).1 : Int)) ∧
      (pad_split ((224 : Int) - ((resized_shape 10 20 224 224).1 : Int))).1 ≤
        (pad_split ((224 : Int) - ((resized_shape 10 20 224 224).1 : Int))).2 ∧
      |(pad_split ((224 : Int) - ((resized_shape 10 20 224 224).1 : Int))).1 -
          (pad_split ((224 : Int) - ((resized_shape 10 20 224 224).1 : Int))).2| ≤ 1)) :=
  ⟨⟨by decide, by decide⟩, C6_padding_split_even 10 20 224 224 (by decide) (by decide)⟩

/-- C5 counterexample: a degenerate 1×1000 input with target 224×224.  At
this input the IEEE-double computation and the exact one agree, so
`resized_shape` is a valid instantiation of the computed dsize: the doubles
give `int(1000 * (224/1000)) = int(224.00000000000001...) = 224` and
`int(1 * (224/1000)) = int(0.224...) = 0`, equal to the exact value
`(224, 0)` proved in the first conjunct.  `cv2.resize` is therefore called
with the empty `dsize` `(224, 0)` and raises instead of producing a 224×224
output, so the claim fails for this degenerate input. -/
theorem C5_counterexample :
    resized_shape 1 1000 224 224 = (224, 0) ∧
    reshape_face resized_shape ⟨1, 1000, 3⟩ [0, 0, 1, 1000] (224, 224) false =
      none := by decide

/-- C5 amended: for every non-empty input, whatever dsize pair the source's
double-precision `int(shape * factor)` computation produces, if both of its
components are at least one pixel and each is at most the corresponding
target dimension, then `reshape_face` succeeds and its output spatial
dimensions exactly equal `target_size`: the centering pad makes up the
exact difference on each axis and the defensive re-resize is never needed.
(When a component truncates to zero — exactly, as at 1×1000, or only in
doubles, as at 49×10976, both with target 224×224 — `cv2.resize` raises
instead, per the counterexample.) -/
theorem C5_amended (dsizeOf : Nat → Nat → Nat → Nat → Nat × Nat)
    (c : Nat) (region : Region) (h w t0 t1 : Nat) (g : Bool)
    (hh : 0 < h) (hw : 0 < w)
    (h1 : 1 ≤ (dsizeOf h w t0 t1).1)
    (h2 : 1 ≤ (dsizeOf h w t0 t1).2)
    (hle1 : (dsizeOf h w t0 t1).1 ≤ t1)
    (hle2 : (dsizeOf h w t0 t1).2 ≤ t0) :
    ∃ out : Img,
      reshape_face dsizeOf ⟨h, w, c⟩ region (t0, t1) g = some (out, region) ∧
      out.height = t0 ∧ out.width = t1 := by
  have hres : ∀ c' : Nat,
      cv2_resize ⟨h, w, c'⟩ (dsizeOf h w t0 t1) =
        some ⟨(dsizeOf h w t0 t1).2, (dsizeOf h w t0 t1).1, c'⟩ := by
    intro c'
    rw [cv2_resize, if_neg]
    simp only [not_or]
    exact ⟨by omega, by omega, by omega, by omega⟩
  have hpad : ∀ c' : Nat,
      np_pad ⟨(dsizeOf h w t0 t1).2, (dsizeOf h w t0 t1).1, c'⟩
          ((t0 : Int) - ((dsizeOf h w t0 t1).2 : Int))
          ((t1 : Int) - ((dsizeOf h w t0 t1).1 : Int)) =
        some ⟨t0, t1, c'⟩ := by
    intro c'
    obtain ⟨s0a, s0b⟩ :=
      pad_split_spec ((t0 : Int) - ((dsizeOf h w t0 t1).2 : Int))
    obtain ⟨s1a, s1b⟩ :=
      pad_split_spec ((t1 : Int) - ((dsizeOf h w t0 t1).1 : Int))
    obtain ⟨q0a, q0b, q0c, _, _⟩ := s0b (by omega)
    obtain ⟨q1a, q1b, q1c, _, _⟩ := s1b (by omega)
    rw [np_pad, if_neg (by omega)]
    simp only [Option.some.injEq, Img.mk.injEq]
    exact ⟨by omega, by omega, trivial⟩
  have hh' : h ≠ 0 := by omega
  have hw' : w ≠ 0 := by omega
  cases g with
  | false =>
    exact ⟨⟨t0, t1, c⟩,
      by simp [reshape_face, cvtColor_gray, hh', hw', hres, hpad], rfl, rfl⟩
  | true =>
    exact ⟨⟨t0, t1, 1⟩,
      by simp [reshape_face, cvtColor_gray, hh', hw', hres, hpad], rfl, rfl⟩

/-- Witness for C5 amended: a 3×5 input fit into 224×224, with the dsize
instantiated at the exact-arithmetic value (224, 134) — which the doubles
also produce here: `int(5 * 44.8) = 224`, `int(3 * 44.8) = 134` — resize to
134×224, pad to 224×224. -/
theorem C5_amended_witness :
    (0 < 3 ∧ 0 < 5 ∧ 1 ≤ (resized_shape 3 5 224 224).1 ∧
      1 ≤ (resized_shape 3 5 224 224).2 ∧
      (resized_shape 3 5 224 224).1 ≤ 224 ∧
      (resized_shape 3 5 224 224).2 ≤ 224) ∧
    (∃ out : Img,
      reshape_face resized_shape ⟨3, 5, 3⟩ [0, 0, 3, 5] (224, 224) false =
        some (out, [0, 0, 3, 5]) ∧
      out.height = 224 ∧ out.width = 224) :=
  ⟨⟨by decide, by decide, by decide, by decide, by decide, by decide⟩,
   C5_amended resized_shape 3 [0, 0, 3, 5] 3 5 224 224 false (by decide)
     (by decide) (by decide) (by decide) (by decide) (by decide)⟩

/-! ## Pixel normalizer: `normalize_input`

The tensor is modelled as a list of pixels, each a triple of channel
values in ℚ (exact arithmetic in place of numpy floats).  Python's
in-place operators (`*=`, `/=`, `-=`, `img[..., k] -= c`) mutate the array
object the caller passed in, while `img = expr` rebinds the local name to
a fresh array; `NormResult` records the caller's array after the call
(`callerFinal`), the returned value (`returned`), and whether the returned
array is the very object the caller passed in (`sameObject`). -/

/-- A pixel: one value per channel (BGR). -/
abbrev Pix := ℚ × ℚ × ℚ

/-- A pixel tensor, flattened: the spatial arrangement is irrelevant to
elementwise transforms. -/
abbrev Tensor := List Pix

/-- Elementwise application over every channel of every pixel. -/
def pmap (f : ℚ → ℚ) (t : Tensor) : Tensor :=
  t.map fun p => (f p.1, f p.2.1, f p.2.2)

/-- `img *= 255`. -/
def scale255 (t : Tensor) : Tensor := pmap (fun x => x * 255) t

/-- `img.mean()`: the mean over all scalar entries. -/
def np_mean (t : Tensor) : ℚ :=
  (t.foldr (fun p acc => p.1 + p.2.1 + p.2.2 + acc) 0) / (3 * t.length)

/-- The per-channel mean subtraction `img[..., k] -= ck` for `k = 0, 1, 2`. -/
def channel_sub (c0 c1 c2 : ℚ) (t : Tensor) : Tensor :=
  t.map fun p => (p.1 - c0, p.2.1 - c1, p.2.2 - c2)

/-- Outcome of `normalize_input`: the caller's array after the call, the
returned array, and whether they are the same Python object. -/
structure NormResult where
  callerFinal : Tensor
  returned : Tensor
  sameObject : Bool
deriving DecidableEq

/-- `normalize_input(img, normalization)`.  `img.std()` is numpy's
population standard deviation (a square root, irrational in general); it is
passed in as the external function `npStd`, exactly as the detector backend
is.  The function contains no `raise` and no unknown-name check: a
`normalization` outside the recognized set falls through every `elif` and
returns the `*= 255`-scaled array.  Every branch but `"base"` first runs
`img *= 255` in place; only the `"Facenet"` branch rebinds `img` to a fresh
array, every other branch mutates and returns the caller's object. -/
def normalize_input (npStd : Tensor → ℚ) (img : Tensor) (normalization : String) :
    NormResult :=
  if normalization = "base" then ⟨img, img, true⟩
  else
    let img255 := scale255 img
    if normalization = "raw" then ⟨img255, img255, true⟩
    else if normalization = "Facenet" then
      ⟨img255, pmap (fun x => (x - np_mean img255) / npStd img255) img255, false⟩
    else if normalization = "Facenet2018" then
      let r := pmap (fun x => x - 1) (pmap (fun x => x / 127.5) img255)
      ⟨r, r, true⟩
    else if normalization = "VGGFace" then
      let r := channel_sub 93.5940 104.7624 129.1863 img255
      ⟨r, r, true⟩
    else if normalization = "VGGFace2" then
      let r := channel_sub 91.4953 103.8827 131.0912 img255
      ⟨r, r, true⟩
    else if normalization = "ArcFace" then
      let r := pmap (fun x => x / 128) (pmap (fun x => x - 127.5) img255)
      ⟨r, r, true⟩
    else
      ⟨img255, img255, true⟩

/-- C9 counterexample: the claim says that for every non-base scheme the
caller's array "no longer holds the original [0,1] values" after the call.
On the all-zero array (whose entries are in [0,1]) under the `"raw"` scheme
the in-place `*= 255` leaves every entry at 0, so the caller's array still
holds exactly the original values. -/
theorem C9_counterexample :
    ("raw" : String) ≠ "base" ∧
    (normalize_input (fun _ => 0) [((0 : ℚ), (0 : ℚ), (0 : ℚ))] "raw").callerFinal =
      [((0 : ℚ), (0 : ℚ), (0 : ℚ))] := by
  constructor
  · decide
  · simp [normalize_input, scale255, pmap]

/-- C9 amended: for every scheme other than `"base"`, `normalize_input`
multiplies the caller's array by 255 in place before any scheme-specific
transform; the returned array is the same object as the input for every
non-base scheme except `"Facenet"` (in particular for `"raw"`,
`"Facenet2018"`, `"VGGFace"`, `"VGGFace2"`, `"ArcFace"` and unrecognized
names).  For `"Facenet"` the caller's array is left holding exactly the
255-scaled values while a fresh standardized array is returned; for every
other scheme the caller's array holds exactly the returned values.  The
mutated values differ from the originals except when the arithmetic
coincides (e.g. the all-zero array under `"raw"`). -/
theorem C9_amended (npStd : Tensor → ℚ) (img : Tensor) (s : String)
    (hs : s ≠ "base") :
    ((normalize_input npStd img s).sameObject = true ↔ s ≠ "Facenet") ∧
    (s = "Facenet" →
      (normalize_input npStd img s).callerFinal = scale255 img) ∧
    (s ≠ "Facenet" →
      (normalize_input npStd img s).callerFinal =
        (normalize_input npStd img s).returned) ∧
    (s = "raw" →
      (normalize_input npStd img s).callerFinal = scale255 img) := by
  unfold normalize_input
  split_ifs with a b c d e f g <;> simp_all

/-- Witness for C9 amended at the `"ArcFace"` scheme. -/
theorem C9_amended_witness :
    ("ArcFace" : String) ≠ "base" ∧
    (((normalize_input (fun _ => 0) [((1 : ℚ), (0 : ℚ), (1 : ℚ))] "ArcFace").sameObject =
        true ↔ ("ArcFace" : String) ≠ "Facenet") ∧
      (("ArcFace" : String) = "Facenet" →
        (normalize_input (fun _ => 0) [((1 : ℚ), (0 : ℚ), (1 : ℚ))] "ArcFace").callerFinal =
          scale255 [((1 : ℚ), (0 : ℚ), (1 : ℚ))]) ∧
      (("ArcFace" : String) ≠ "Facenet" →
        (normalize_input (fun _ => 0) [((1 : ℚ), (0 : ℚ), (1 : ℚ))] "ArcFace").callerFinal =
          (normalize_input (fun _ => 0) [((1 : ℚ), (0 : ℚ), (1 : ℚ))] "ArcFace").returned) ∧
      (("ArcFace" : String) = "raw" →
        (normalize_input (fun _ => 0) [((1 : ℚ), (0 : ℚ), (1 : ℚ))] "ArcFace").callerFinal =
          scale255 [((1 : ℚ), (0 : ℚ), (1 : ℚ))])) :=
  ⟨by decide, C9_amended (fun _ => 0) [((1 : ℚ), (0 : ℚ), (1 : ℚ))] "ArcFace" (by decide)⟩

/-- C10: any scheme name outside the recognized set raises nothing and is
treated exactly like `"raw"`: the function returns (and leaves the caller
with) the input multiplied by 255. -/
theorem C10_unknown_scheme_is_raw (npStd : Tensor → ℚ) (img : Tensor) (s : String)
    (h : s ∉ (["base", "raw", "Facenet", "Facenet2018", "VGGFace", "VGGFace2",
      "ArcFace"] : List String)) :
    normalize_input npStd img s = ⟨scale255 img, scale255 img, true⟩ ∧
    normalize_input npStd img s = normalize_input npStd img "raw" := by
  simp only [List.mem_cons, List.not_mem_nil, or_false, not_or] at h
  obtain ⟨h1, h2, h3, h4, h5, h6, h7⟩ := h
  constructor <;> simp [normalize_input, h1, h2, h3, h4, h5, h6, h7]

/-- Witness for C10 at the unrecognized scheme name `"FaceNet"` (wrong
capitalization). -/
theorem C10_witness :
    ("FaceNet" : String) ∉ (["base", "raw", "Facenet", "Facenet2018", "VGGFace",
      "VGGFace2", "ArcFace"] : List String) ∧
    (normalize_input (fun _ => 0) [((1 : ℚ), (0 : ℚ), (1 : ℚ))] "FaceNet" =
      ⟨scale255 [((1 : ℚ), (0 : ℚ), (1 : ℚ))],
       scale255 [((1 : ℚ), (0 : ℚ), (1 : ℚ))], true⟩ ∧
     normalize_input (fun _ => 0) [((1 : ℚ), (0 : ℚ), (1 : ℚ))] "FaceNet" =
      normalize_input (fun _ => 0) [((1 : ℚ), (0 : ℚ), (1 : ℚ))] "raw") :=
  ⟨by decide,
   C10_unknown_scheme_is_raw (fun _ => 0) [((1 : ℚ), (0 : ℚ), (1 : ℚ))] "FaceNet"
     (by decide)⟩

end DeepFace
